import Mathlib

/-!
Verification development for the corner16 now-playing service.

Shallow embedding of the polling, caching, retry, and response-shaping
logic of the repository:
- src/components/SpotifyNowPlaying.jsx  (widget: cache, dedup, backoff, polling)
- src/unnamed/part_015                  (production handler + retrying API module)
- src/api/spotify/now-playing.js        (legacy handler)
- src/api/spotify/now-playing-validated.js
- src/api/spotify/now-playing-simple.ts
- src/unnamed/part_011                  (getCacheHeaders test helper)

JavaScript maps are modelled as association lists over String keys,
timestamps as integers (milliseconds), and the random jitter of
Math.random() * 1000 as an explicit rational parameter j with 0 <= j < 1000.
-/

namespace NowPlaying

/-- Association-list lookup keyed by string equality; models JavaScript
Map.get (and Map.has via isSome). -/
def lookupKey (k : String) : List (String × α) → Option α
  | [] => none
  | (a, b) :: t => if a = k then some b else lookupKey k t

/-- Association-list removal; models JavaScript Map.delete. -/
def removeKey (k : String) (l : List (String × α)) : List (String × α) :=
  l.filter (fun p => p.1 ≠ k)

/-! ## State Cache (src/components/SpotifyNowPlaying.jsx lines 6-56)

CACHE_TTL with PLAYING, PAUSED and ERROR entries; getCachedData performs
the lazy-expiry read, setCachedData the timestamped write. The cached
payload is kept opaque (a type parameter would complicate nothing here,
so it is the String payload of the JSON response). -/

/-- CACHE_TTL.PLAYING: 5 * 1000 milliseconds. -/
def cacheTTLPlaying : Int := 5 * 1000

/-- CACHE_TTL.PAUSED: 60 * 1000 milliseconds. -/
def cacheTTLPaused : Int := 60 * 1000

/-- CACHE_TTL.ERROR: 30 * 1000 milliseconds (declared in the source,
never read by getCachedData). -/
def cacheTTLError : Int := 30 * 1000

/-- One record of the global cache Map: the stored data plus the
Date.now() write timestamp. -/
structure CacheRecord where
  data : String
  timestamp : Int
deriving DecidableEq

/-- The cache key template of the widget source: url - isPlaying.
JavaScript template interpolation of a boolean yields true or false. -/
def cacheKey (url : String) (isPlaying : Bool) : String :=
  url ++ "-" ++ (if isPlaying then "true" else "false")

/-- getCachedData (SpotifyNowPlaying.jsx lines 33-48): look the key up;
on a hit compare now - timestamp against the TTL chosen by isPlaying;
strictly larger means delete the entry and report a miss, otherwise
return the data unchanged. Returns the read result and the cache state
after the read (lazy eviction). -/
def getCachedData (cache : List (String × CacheRecord)) (url : String)
    (isPlaying : Bool) (now : Int) :
    Option String × List (String × CacheRecord) :=
  let key := cacheKey url isPlaying
  match lookupKey key cache with
  | none => (none, cache)
  | some cached =>
    let ttl : Int := if isPlaying then cacheTTLPlaying else cacheTTLPaused
    if now - cached.timestamp > ttl then
      (none, removeKey key cache)
    else
      (some cached.data, cache)

/-- setCachedData (SpotifyNowPlaying.jsx lines 50-56): store the data
under the derived key with the current timestamp. -/
def setCachedData (cache : List (String × CacheRecord)) (url : String)
    (isPlaying : Bool) (data : String) (now : Int) :
    List (String × CacheRecord) :=
  (cacheKey url isPlaying, ⟨data, now⟩) :: removeKey (cacheKey url isPlaying) cache

/-! ## Request Coalescer (src/components/SpotifyNowPlaying.jsx lines 14-30)

deduplicatedFetch keeps a pendingRequests Map from cache key to the
in-flight promise. A call whose key is present returns the stored
promise; otherwise it starts fetch(url, options), registers the promise,
and the attached finally handler deletes the registration when the fetch
settles - the promise handed to every waiter is the one returned by
finally, so the deletion runs before any waiter resolves, on success and
on failure alike.

Promises are modelled by identity: each producer invocation allocates a
fresh identifier, and callers that receive equal identifiers observe the
identical resolved value. -/

/-- The coalescer state: the pendingRequests map (key to promise id),
the next fresh promise id, and a counter of producer invocations
(fetch calls actually started). -/
structure DedupState where
  pending : List (String × Nat)
  nextId : Nat
  producerCalls : Nat
deriving DecidableEq

/-- One call to deduplicatedFetch with the given key: if a pending
promise exists return it, otherwise start the producer (a fresh promise
id, one more producer invocation) and register it. Returns the promise
id handed to the caller and the new state. -/
def dedupCall (s : DedupState) (key : String) : Nat × DedupState :=
  match lookupKey key s.pending with
  | some id => (id, s)
  | none =>
    (s.nextId,
      { pending := (key, s.nextId) :: s.pending
        nextId := s.nextId + 1
        producerCalls := s.producerCalls + 1 })

/-- n successive calls to deduplicatedFetch with the same key, collecting
the promise id each caller receives. -/
def dedupCalls (s : DedupState) (key : String) : Nat → List Nat × DedupState
  | 0 => ([], s)
  | n + 1 =>
    let r := dedupCall s key
    let rest := dedupCalls r.2 key n
    (r.1 :: rest.1, rest.2)

/-- Settlement of the in-flight promise for the key: the finally handler
deletes the registration. This step runs before any waiter resolves,
regardless of success or failure. -/
def dedupSettle (s : DedupState) (key : String) : DedupState :=
  { s with pending := removeKey key s.pending }

/-! ## Upstream calls and retry (src/unnamed/part_015 lines 210-345)

getAccessToken and getNowPlaying each perform one fetch per try and
dispatch on the response status; a transport-level failure surfaces as a
TypeError whose message mentions fetch and is rethrown as a network
error, never retried. Each function carries its own retryCount with
maxRetries = 2. One try is modelled as its outcome: the raw HTTP status,
or a transport error. -/

/-- Outcome of one outbound fetch: an HTTP status code, or a
transport-level connection failure (the TypeError path). -/
inductive FetchResult where
  | status (code : Nat)
  | transportError
deriving DecidableEq

/-- What one try of getAccessToken does with its response. -/
inductive TokenStep where
  | tokenOk
  | retryStep
  | failure (msg : String)
deriving DecidableEq

/-- What one try of getNowPlaying does with its response before any JSON
body is parsed. -/
inductive PlaybackStep where
  | notPlayingNow
  | parseBody
  | retryStep
  | failure (msg : String)
deriving DecidableEq

/-- True when the step is a raised error (terminal for this try). -/
def PlaybackStep.isFailure : PlaybackStep → Bool
  | .failure _ => true
  | _ => false

/-- getAccessToken (part_015 lines 210-259), one try at the given
retryCount: response.ok (status 200-299) returns the token JSON; 400 and
401 raise immediately; a 5xx status retries while retryCount < 2 after a
1000 * 2 ^ retryCount delay; every other non-ok status raises the
generic message with the raw status; a transport failure raises the
network-error message without retrying. -/
def prodTokenStep (r : FetchResult) (retryCount : Nat) : TokenStep :=
  match r with
  | .transportError => .failure "Unable to connect to Spotify - network error"
  | .status s =>
    if 200 ≤ s ∧ s ≤ 299 then .tokenOk
    else if s = 400 then
      .failure "Invalid refresh token - please re-authorize your Spotify account"
    else if s = 401 then
      .failure "Invalid client credentials - check your Spotify app configuration"
    else if 500 ≤ s ∧ retryCount < 2 then .retryStep
    else .failure ("Token refresh failed with status " ++ toString s)

/-- getNowPlaying (part_015 lines 261-345), one try at the given
retryCount: 204 returns the not-playing body as a success; statuses
400-499 raise immediately (401, 403 and 429 with dedicated messages, 429
quoting the Retry-After header which defaults to 1 - the hint is only
interpolated into the message, never used as a delay); a 5xx status
retries while retryCount < 2 after a 1000 * 2 ^ retryCount delay; other
non-ok statuses raise with the raw status; a 200 proceeds to parse the
body; a transport failure raises without retrying. -/
def prodPlaybackStep (r : FetchResult) (retryCount : Nat) : PlaybackStep :=
  match r with
  | .transportError => .failure "Unable to connect to Spotify - network error"
  | .status s =>
    if s = 204 then .notPlayingNow
    else if 400 ≤ s ∧ s ≤ 499 then
      if s = 401 then .failure "Spotify access token expired - authentication issue"
      else if s = 403 then .failure "Insufficient Spotify permissions - check app scopes"
      else if s = 429 then .failure "Spotify rate limit exceeded - retry after 1s"
      else .failure ("Spotify API client error: " ++ toString s)
    else if 500 ≤ s then
      if retryCount < 2 then .retryStep
      else .failure "Spotify API temporarily unavailable"
    else if ¬ (200 ≤ s ∧ s ≤ 299) then
      .failure ("Unexpected Spotify API error: " ++ toString s)
    else .parseBody

/-- Whether one try of getAccessToken retries its failure. -/
def tokenRetries (r : FetchResult) (retryCount : Nat) : Bool :=
  decide (prodTokenStep r retryCount = .retryStep)

/-- Whether one try of getNowPlaying retries its failure. -/
def playbackRetries (r : FetchResult) (retryCount : Nat) : Bool :=
  decide (prodPlaybackStep r retryCount = .retryStep)

/-- The delay before a server-side retry in part_015 (both call sites):
setTimeout(resolve, 1000 * Math.pow(2, retryCount)) - no cap, no jitter. -/
def serverRetryDelay (retryCount : Nat) : Nat :=
  1000 * 2 ^ retryCount

/-- getNowPlaying of the legacy src/api/spotify/now-playing.js lines
30-45: a 204 or any status strictly above 400 returns the not-playing
body as a success; any other non-ok status (status 400 itself, or a
3xx) raises with the raw status; a 200 proceeds to parse the body. -/
def legacyPlaybackStep (s : Nat) : PlaybackStep :=
  if s = 204 ∨ s > 400 then .notPlayingNow
  else if ¬ (200 ≤ s ∧ s ≤ 299) then .failure ("Spotify API error: " ++ toString s)
  else .parseBody

/-! ## Failure classification (spec section 4.2)

Modelled from the spec: the Failure Classifier exists in the source only
as the inline error branches of getAccessToken and getNowPlaying in
src/unnamed/part_015 (no named classify function is present under src);
the mapping below follows the taxonomy of spec section 4.2, one function
per call type because 400, 401 and 403 classify differently on the two
calls. -/

/-- The failure taxonomy of spec section 4.2. -/
inductive FailureClass where
  | authFailure
  | permissionFailure
  | rateLimited
  | upstreamUnavailable
  | networkFailure
  | unexpected
deriving DecidableEq

/-- Modelled from the spec: classification of a credential-refresh
failure (spec section 4.2; the corresponding inline branches are
part_015 lines 228-250). -/
def classifyToken (r : FetchResult) : FailureClass :=
  match r with
  | .transportError => .networkFailure
  | .status s =>
    if s = 400 then .authFailure
    else if s = 401 then .permissionFailure
    else if s = 429 then .rateLimited
    else if 500 ≤ s then .upstreamUnavailable
    else .unexpected

/-- Modelled from the spec: classification of a playback-fetch failure
(spec section 4.2; the corresponding inline branches are part_015 lines
278-308). -/
def classifyPlayback (r : FetchResult) : FailureClass :=
  match r with
  | .transportError => .networkFailure
  | .status s =>
    if s = 401 then .authFailure
    else if s = 403 then .permissionFailure
    else if s = 429 then .rateLimited
    else if 500 ≤ s then .upstreamUnavailable
    else .unexpected

/-- The retryable classifications of spec section 4.3. -/
def retryableClasses : List FailureClass :=
  [.rateLimited, .upstreamUnavailable, .networkFailure]

/-! ## Widget backoff and polling intervals
(src/components/SpotifyNowPlaying.jsx lines 347-359) -/

/-- getRetryDelay: min(1000 * 2 ^ attempt, 30000) plus the jitter drawn
from Math.random() * 1000, passed here explicitly with 0 <= j < 1000. -/
def getRetryDelay (attempt : Nat) (j : ℚ) : ℚ :=
  min (1000 * 2 ^ attempt) 30000 + j

/-- The deterministic component of getRetryDelay, before jitter. -/
def retryDelayBase (attempt : Nat) : ℚ :=
  min (1000 * 2 ^ attempt) 30000

/-- getPollingInterval: 30000 on error, else 5000 when playing and 60000
when paused. -/
def getPollingInterval (isPlaying hasError : Bool) : Nat :=
  if hasError then 30000 else if isPlaying then 5000 else 60000

/-! ## Parsed upstream playback JSON

The fields of the Spotify currently-playing body that the handlers read.
Absent JSON fields are none. An artist object is represented by its name,
the only property the handlers read from it; an external_urls object is
represented by its spotify property. JavaScript falsiness of strings
(the empty string is falsy, so name OR default yields the default for
both undefined and the empty string) is modelled by jsOrStr. -/

/-- JavaScript v OR default for string-valued fields: undefined and the
empty string both fall back to the default. -/
def jsOrStr (v : Option String) (d : String) : String :=
  match v with
  | none => d
  | some s => if s = "" then d else s

/-- The album object: name and images. Image objects are kept as their
url strings. -/
structure ApiAlbum where
  name : Option String
  images : Option (List String)
deriving DecidableEq

/-- The item object of the upstream body. -/
structure ApiItem where
  itemType : Option String
  name : Option String
  artists : Option (List String)
  duration_ms : Option Nat
  album : Option ApiAlbum
  external_urls : Option String
  id : Option String
deriving DecidableEq

/-- The parsed upstream 200 body. is_playing is the JavaScript truthiness
of the field (absent reads as false). -/
structure ApiData where
  is_playing : Bool
  progress_ms : Option Nat
  currently_playing_type : Option String
  item : Option ApiItem
deriving DecidableEq

/-! ## Response bodies served by the handlers -/

/-- The item object of a playing response body. id and itemType are
emitted only by the production and validated handlers (none elsewhere);
an id of none also stands for the JavaScript null fallback. -/
structure ItemOut where
  name : String
  artists : List String
  duration_ms : Nat
  album_name : String
  album_images : List String
  external_urls : Option String
  id : Option String
  itemType : Option String
deriving DecidableEq

/-- A playing response body: is_playing true plus progress, type and
item. currently_playing_type is emitted only by the production and
validated handlers. -/
structure PlayingBody where
  progress_ms : Nat
  currently_playing_type : Option String
  item : ItemOut
deriving DecidableEq

/-- The debug object the legacy handler attaches to its 500 body
(src/api/spotify/now-playing.js lines 108-116). -/
structure DebugInfo where
  message : String
  has_client_id : Bool
  has_client_secret : Bool
  has_refresh_token : Bool
  client_id_length : Option Nat
  client_secret_length : Option Nat
  refresh_token_length : Option Nat
deriving DecidableEq

/-- A served JSON body. -/
inductive Body where
  | notPlayingBody
  | playingBody (np : PlayingBody)
  | errorBody (error : String)
  | errorDebugBody (error : String) (debug : DebugInfo)
deriving DecidableEq

/-- A served HTTP response: status, the headers set on the success and
failure paths under scrutiny (CORS and security headers are identical on
every path and omitted), and the JSON body. -/
structure HttpResponse where
  status : Nat
  headers : List (String × String)
  body : Body
deriving DecidableEq

/-- The credential environment of the serverless function. -/
structure Env where
  clientId : Option String
  clientSecret : Option String
  refreshToken : Option String
deriving DecidableEq

/-! ## Production handler response shaping (src/unnamed/part_015 lines 123-169)

After a 200 with a parsed body: a falsy is_playing, a missing item, or
an item whose type differs from track each yield 200 with the
not-playing body and the long cache header; otherwise the track fields
are extracted with their fallbacks and served with the short cache
header. -/

/-- The Cache-Control values the production handler writes. Note the
bare stale-while-revalidate directive, with no value. -/
def prodCacheLong : String := "s-maxage=60, stale-while-revalidate"

/-- The short Cache-Control value, used when a track is playing. -/
def prodCacheShort : String := "s-maxage=5, stale-while-revalidate"

/-- The track extraction of part_015 lines 144-164 shared with the
validated handler: every field falls back per JavaScript OR semantics. -/
def extractTrack (d : ApiData) (item : ApiItem) : PlayingBody :=
  { progress_ms := d.progress_ms.getD 0
    currently_playing_type := some (jsOrStr d.currently_playing_type "track")
    item :=
      { name := jsOrStr item.name "Unknown Track"
        artists := item.artists.getD ["Unknown Artist"]
        duration_ms := item.duration_ms.getD 0
        album_name := jsOrStr (item.album.bind (·.name)) "Unknown Album"
        album_images := (item.album.bind (·.images)).getD []
        external_urls := item.external_urls
        id := item.id.bind (fun s => if s = "" then none else some s)
        itemType := some (jsOrStr item.itemType "track") } }

/-- part_015 lines 123-169: dispatch on the parsed 200 body. -/
def prodShapeResponse (d : ApiData) : HttpResponse :=
  if ¬ d.is_playing then
    { status := 200, headers := [("Cache-Control", prodCacheLong)], body := .notPlayingBody }
  else
    match d.item with
    | none =>
      { status := 200, headers := [("Cache-Control", prodCacheLong)], body := .notPlayingBody }
    | some item =>
      if item.itemType ≠ some "track" then
        { status := 200, headers := [("Cache-Control", prodCacheLong)], body := .notPlayingBody }
      else
        { status := 200, headers := [("Cache-Control", prodCacheShort)]
          body := .playingBody (extractTrack d item) }

/-- src/api/spotify/now-playing-validated.js lines 151-197: the same
dispatch, embedded separately for the validated handler. -/
def validatedShapeResponse (d : ApiData) : HttpResponse :=
  if ¬ d.is_playing then
    { status := 200, headers := [("Cache-Control", prodCacheLong)], body := .notPlayingBody }
  else
    match d.item with
    | none =>
      { status := 200, headers := [("Cache-Control", prodCacheLong)], body := .notPlayingBody }
    | some item =>
      if item.itemType ≠ some "track" then
        { status := 200, headers := [("Cache-Control", prodCacheLong)], body := .notPlayingBody }
      else
        { status := 200, headers := [("Cache-Control", prodCacheShort)]
          body := .playingBody (extractTrack d item) }

/-- getNowPlaying of src/api/spotify/now-playing-simple.ts lines 88-120:
shapes only the body (its handler adds status and headers); the emitted
item has no currently_playing_type, id or type fields. -/
def simpleShapeBody (d : ApiData) : Body :=
  if ¬ d.is_playing then .notPlayingBody
  else
    match d.item with
    | none => .notPlayingBody
    | some item =>
      if item.itemType = some "track" then
        .playingBody
          { progress_ms := d.progress_ms.getD 0
            currently_playing_type := none
            item :=
              { name := jsOrStr item.name "Unknown Track"
                artists := item.artists.getD ["Unknown Artist"]
                duration_ms := item.duration_ms.getD 0
                album_name := jsOrStr (item.album.bind (·.name)) "Unknown Album"
                album_images := (item.album.bind (·.images)).getD []
                external_urls := item.external_urls
                id := none
                itemType := none } }
      else .notPlayingBody

/-- The handler of now-playing-simple.ts lines 150-156 on a successful
getNowPlaying: 200 with a fixed Cache-Control. -/
def simpleHandlerResponse (d : ApiData) : HttpResponse :=
  { status := 200, headers := [("Cache-Control", "s-maxage=10, stale-while-revalidate")]
    body := simpleShapeBody d }

/-! ## Error responses at the HTTP boundary -/

/-- The catch block of the retrying part_015 handler (lines 362-368):
every raised failure becomes 500 with the fixed generic body, reading
nothing from the environment or the caught message. -/
def prodCatchResponse (_env : Env) (_errMsg : String) : HttpResponse :=
  { status := 500, headers := [], body := .errorBody "Failed to fetch now playing" }

/-- JavaScript double-negation truthiness of an optional string: the
empty string is falsy. -/
def jsTruthy (v : Option String) : Bool :=
  match v with
  | none => false
  | some s => s ≠ ""

/-- The catch block of the legacy src/api/spotify/now-playing.js handler
(lines 105-118): 500 with the generic error string plus a debug object
carrying the caught message, a presence flag and the length of each
credential. -/
def legacyCatchResponse (env : Env) (errMsg : String) : HttpResponse :=
  { status := 500, headers := []
    body := .errorDebugBody "Failed to fetch now playing"
      { message := errMsg
        has_client_id := jsTruthy env.clientId
        has_client_secret := jsTruthy env.clientSecret
        has_refresh_token := jsTruthy env.refreshToken
        client_id_length := env.clientId.map String.length
        client_secret_length := env.clientSecret.map String.length
        refresh_token_length := env.refreshToken.map String.length } }

/-! ## Cache headers helper and its spec counterpart -/

/-- getCacheHeaders of src/unnamed/part_011 lines 166-172: the dynamic
Cache-Control with an explicit stale-while-revalidate value of twice the
max age, plus the X-Playing-State tag. This helper is exercised by the
validation test but is not called by any deployed handler. -/
def getCacheHeaders (isPlaying : Bool) : List (String × String) :=
  let cacheMaxAge : Nat := if isPlaying then 5 else 60
  [("Cache-Control",
      "s-maxage=" ++ toString cacheMaxAge ++ ", stale-while-revalidate="
        ++ toString (cacheMaxAge * 2)),
   ("X-Playing-State", if isPlaying then "playing" else "paused")]

/-- Follows the words of the spec (sections 4.7 and 6) for comparison
with the source: maxAge 5 and stale-while-revalidate 10 with tag playing
when playing, maxAge 60 and stale-while-revalidate 120 with tag paused
otherwise. -/
def specFreshnessHeaders (isPlaying : Bool) : List (String × String) :=
  [("Cache-Control",
      if isPlaying then "s-maxage=5, stale-while-revalidate=10"
      else "s-maxage=60, stale-while-revalidate=120"),
   ("X-Playing-State", if isPlaying then "playing" else "paused")]

/-! ## Widget rendering (src/components/SpotifyNowPlaying.jsx lines 479-609)

The component renders the loading view, the error view, the not-playing
view when the track is absent, not playing, or podcast content, and the
playing view otherwise. The track value is the JSON body served by the
API. -/

/-- The item fields the widget reads. -/
structure WidgetItem where
  itemType : Option String
  artists : Option (List String)
deriving DecidableEq

/-- The track fields the widget reads. -/
structure WidgetTrack where
  is_playing : Bool
  currently_playing_type : Option String
  item : Option WidgetItem
deriving DecidableEq

/-- The JSON view of a served body as the widget parses it. Playing
bodies always carry is_playing true; error bodies carry is_playing false
and no item. -/
def bodyToWidgetTrack : Body → WidgetTrack
  | .notPlayingBody => { is_playing := false, currently_playing_type := none, item := none }
  | .playingBody np =>
    { is_playing := true
      currently_playing_type := np.currently_playing_type
      item := some { itemType := np.item.itemType, artists := some np.item.artists } }
  | .errorBody _ => { is_playing := false, currently_playing_type := none, item := none }
  | .errorDebugBody _ _ => { is_playing := false, currently_playing_type := none, item := none }

/-- isPodcast (widget lines 480-484): currently_playing_type is episode,
or the item type is episode, or an item is present whose artists field
is absent (an empty array is truthy in JavaScript, so only a missing
field triggers the fallback). -/
def isPodcast (t : WidgetTrack) : Bool :=
  decide (t.currently_playing_type = some "episode")
    || (t.item.map (fun i => decide (i.itemType = some "episode"))).getD false
    || (t.item.isSome && (t.item.bind (·.artists)).isNone)

/-- The four render states of the component. -/
inductive WidgetView where
  | loadingView
  | errorView
  | notPlayingView
  | playingView
deriving DecidableEq

/-- The render dispatch of the widget (lines 527-616): loading first,
then error, then the not-playing view when the track is absent, has a
falsy is_playing, or is podcast content, else the playing view. -/
def widgetView (loading : Bool) (error : Option String) (track : Option WidgetTrack) :
    WidgetView :=
  if loading then .loadingView
  else if error.isSome then .errorView
  else if ¬ ((track.map (·.is_playing)).getD false) ∨ (track.map isPodcast).getD false then
    .notPlayingView
  else .playingView

/-! ## Helper lemmas -/

/-- Looking a key up right after removing it misses. -/
theorem lookupKey_removeKey (k : String) (l : List (String × α)) :
    lookupKey k (removeKey k l) = none := by
  induction l with
  | nil => rfl
  | cons p t ih =>
    by_cases h : p.1 = k
    · simpa [removeKey, List.filter_cons, h] using ih
    · simpa [removeKey, List.filter_cons, h, lookupKey] using ih

/-- While a promise for the key is registered, every further call
returns that same promise and leaves the state untouched. -/
theorem dedupCalls_inflight (key : String) (id : Nat) :
    ∀ (n : Nat) (s : DedupState), lookupKey key s.pending = some id →
      dedupCalls s key n = (List.replicate n id, s) := by
  intro n
  induction n with
  | zero => intro s _; rfl
  | succ m ih =>
    intro s h
    simp [dedupCalls, dedupCall, h, ih s h, List.replicate]

/-! ## Claims -/

/-- C1: for N >= 1 calls to deduplicatedFetch with one key, where either
the first call creates the in-flight registration or one already exists,
exactly one producer invocation occurs in total, every caller receives
the identical promise (hence the identical resolved value, success or
failure), the registration is removed at settlement before any waiter
resolves, and a call arriving after settlement starts a fresh producer -
a failed fetch leaves no poisoned registration. -/
theorem C1_coalescing (s : DedupState) (key : String) (n : Nat) (hn : 1 ≤ n) :
    (lookupKey key s.pending = none →
      (dedupCalls s key n).2.producerCalls = s.producerCalls + 1 ∧
      (dedupCalls s key n).1 = List.replicate n s.nextId ∧
      lookupKey key (dedupSettle (dedupCalls s key n).2 key).pending = none ∧
      (dedupCall (dedupSettle (dedupCalls s key n).2 key) key).2.producerCalls
        = (dedupCalls s key n).2.producerCalls + 1) ∧
    (∀ id, lookupKey key s.pending = some id →
      (dedupCalls s key n).2 = s ∧ (dedupCalls s key n).1 = List.replicate n id) := by
  constructor
  · intro hfree
    obtain ⟨m, rfl⟩ : ∃ m, n = m + 1 := ⟨n - 1, by omega⟩
    have hstep : dedupCall s key =
        (s.nextId,
          { pending := (key, s.nextId) :: s.pending
            nextId := s.nextId + 1
            producerCalls := s.producerCalls + 1 }) := by
      simp [dedupCall, hfree]
    have hreg : lookupKey key ((key, s.nextId) :: s.pending) = some s.nextId := by
      simp [lookupKey]
    have hrest := dedupCalls_inflight key s.nextId m
      ⟨(key, s.nextId) :: s.pending, s.nextId + 1, s.producerCalls + 1⟩ hreg
    have hall : dedupCalls s key (m + 1) =
        (List.replicate (m + 1) s.nextId,
          { pending := (key, s.nextId) :: s.pending
            nextId := s.nextId + 1
            producerCalls := s.producerCalls + 1 }) := by
      simp [dedupCalls, hstep, hrest, List.replicate]
    refine ⟨by simp [hall], by simp [hall], ?_, ?_⟩
    · simp [hall, dedupSettle, lookupKey_removeKey]
    · rw [hall]
      simp [dedupCall, dedupSettle, lookupKey_removeKey]
  · intro id h
    have := dedupCalls_inflight key id n s h
    exact ⟨by simp [this], by simp [this]⟩

/-- C1 witness: two calls from the empty state - one producer
invocation, both callers share promise 0, and settlement clears the
registration and allows a fresh producer afterwards. -/
theorem C1_coalescing_witness :
    (dedupCalls ⟨[], 0, 0⟩ "k" 2).2.producerCalls = 0 + 1 ∧
    (dedupCalls ⟨[], 0, 0⟩ "k" 2).1 = List.replicate 2 0 ∧
    lookupKey "k" (dedupSettle (dedupCalls ⟨[], 0, 0⟩ "k" 2).2 "k").pending = none ∧
    (dedupCall (dedupSettle (dedupCalls ⟨[], 0, 0⟩ "k" 2).2 "k") "k").2.producerCalls
      = (dedupCalls ⟨[], 0, 0⟩ "k" 2).2.producerCalls + 1 :=
  (C1_coalescing ⟨[], 0, 0⟩ "k" 2 (by norm_num)).1 rfl

/-- C2 counterexample: the cache read uses a strict comparison, so an
entry written with isPlaying true and read at elapsed time exactly 5000
milliseconds is returned as a fresh hit, where the claim demands a miss
with eviction at every elapsed time of at least 5000 milliseconds. -/
theorem C2_ttl_boundary_counterexample :
    ¬ ((5000 : Int) - 0 ≥ 5000 →
      (getCachedData [(cacheKey "u" true, ⟨"payload", 0⟩)] "u" true 5000).1 = none) :=
  fun h => absurd (h (by norm_num)) (by decide)

/-- C2 amended: an entry is returned as fresh whenever the elapsed time
is at most its TTL (5000 milliseconds when written with isPlaying true,
60000 otherwise) and is treated as a miss and evicted whenever the
elapsed time strictly exceeds the TTL; the boundary instant itself
counts as fresh, not expired. -/
theorem C2_ttl_amended (url data : String) (ts now : Int) (playing : Bool) :
    getCachedData [(cacheKey url playing, ⟨data, ts⟩)] url playing now =
      if now - ts > (if playing then cacheTTLPlaying else cacheTTLPaused) then
        (none, [])
      else (some data, [(cacheKey url playing, ⟨data, ts⟩)]) := by
  by_cases h : now - ts > (if playing then cacheTTLPlaying else cacheTTLPaused) <;>
    simp [getCachedData, lookupKey, removeKey, h]

/-- C7: the polling interval is exactly 5000 milliseconds when playing
without error, 60000 when paused without error, 30000 on error, and no
other value is ever produced. -/
theorem C7_interval_selection :
    getPollingInterval true false = 5000 ∧
    getPollingInterval false false = 60000 ∧
    (∀ p, getPollingInterval p true = 30000) ∧
    (∀ p e, getPollingInterval p e = 5000 ∨ getPollingInterval p e = 60000 ∨
      getPollingInterval p e = 30000) := by
  refine ⟨rfl, rfl, fun p => rfl, fun p e => ?_⟩
  cases p <;> cases e <;> simp [getPollingInterval]

/-- A credential-refresh try retries exactly on a 5xx status within the
2-retry budget. -/
theorem tokenRetries_eq_true_iff (s rc : Nat) :
    tokenRetries (.status s) rc = true ↔ 500 ≤ s ∧ rc < 2 := by
  simp only [tokenRetries, decide_eq_true_eq, prodTokenStep]
  constructor
  · intro h
    split_ifs at h <;> simp_all
  · intro h
    rw [if_neg (by omega), if_neg (by omega), if_neg (by omega), if_pos h]

/-- A playback try retries exactly on a 5xx status within the 2-retry
budget. -/
theorem playbackRetries_eq_true_iff (s rc : Nat) :
    playbackRetries (.status s) rc = true ↔ 500 ≤ s ∧ rc < 2 := by
  simp only [playbackRetries, decide_eq_true_eq, prodPlaybackStep]
  constructor
  · intro h
    split_ifs at h <;> simp_all
  · intro h
    rw [if_neg (by omega), if_neg (by omega), if_pos h.1, if_pos h.2]

/-- C3: a failed upstream call is retried only when its classification
is among RateLimited, UpstreamUnavailable and NetworkError and fewer
than 2 retries have occurred (the only branch the code actually retries
is UpstreamUnavailable, a member of that set; credential refresh and
playback fetch carry independent retry counters); AuthError,
PermissionError and Unexpected failures are never retried. -/
theorem C3_retry_partition (r : FetchResult) (rc : Nat) :
    (tokenRetries r rc = true → classifyToken r ∈ retryableClasses ∧ rc < 2) ∧
    (playbackRetries r rc = true → classifyPlayback r ∈ retryableClasses ∧ rc < 2) ∧
    ((classifyToken r = .authFailure ∨ classifyToken r = .permissionFailure ∨
        classifyToken r = .unexpected) → tokenRetries r rc = false) ∧
    ((classifyPlayback r = .authFailure ∨ classifyPlayback r = .permissionFailure ∨
        classifyPlayback r = .unexpected) → playbackRetries r rc = false) := by
  cases r with
  | transportError =>
    refine ⟨?_, ?_, ?_, ?_⟩ <;>
      simp [tokenRetries, playbackRetries, prodTokenStep, prodPlaybackStep,
        classifyToken, classifyPlayback]
  | status s =>
    refine ⟨?_, ?_, ?_, ?_⟩
    · intro h
      obtain ⟨h5, h6⟩ := (tokenRetries_eq_true_iff s rc).mp h
      have hcls : classifyToken (.status s) = .upstreamUnavailable := by
        simp only [classifyToken]
        rw [if_neg (by omega), if_neg (by omega), if_neg (by omega), if_pos h5]
      exact ⟨by simp [hcls, retryableClasses], h6⟩
    · intro h
      obtain ⟨h5, h6⟩ := (playbackRetries_eq_true_iff s rc).mp h
      have hcls : classifyPlayback (.status s) = .upstreamUnavailable := by
        simp only [classifyPlayback]
        rw [if_neg (by omega), if_neg (by omega), if_neg (by omega), if_pos h5]
      exact ⟨by simp [hcls, retryableClasses], h6⟩
    · intro hcl
      cases htr : tokenRetries (.status s) rc with
      | false => rfl
      | true =>
        obtain ⟨h5, _⟩ := (tokenRetries_eq_true_iff s rc).mp htr
        have hcls : classifyToken (.status s) = .upstreamUnavailable := by
          simp only [classifyToken]
          rw [if_neg (by omega), if_neg (by omega), if_neg (by omega), if_pos h5]
        rcases hcl with h | h | h <;> rw [hcls] at h <;> simp at h
    · intro hcl
      cases htr : playbackRetries (.status s) rc with
      | false => rfl
      | true =>
        obtain ⟨h5, _⟩ := (playbackRetries_eq_true_iff s rc).mp htr
        have hcls : classifyPlayback (.status s) = .upstreamUnavailable := by
          simp only [classifyPlayback]
          rw [if_neg (by omega), if_neg (by omega), if_neg (by omega), if_pos h5]
        rcases hcl with h | h | h <;> rw [hcls] at h <;> simp at h

/-- C3 witness: a 503 on credential refresh at retry count 0 is retried,
and its classification is in the retryable set with 0 below the budget. -/
theorem C3_retry_partition_witness :
    classifyToken (.status 503) ∈ retryableClasses ∧ (0 : Nat) < 2 :=
  (C3_retry_partition (.status 503) 0).1 (by decide)

/-- C4 counterexample: a 429 playback response is RateLimited and the
upstream hint of 2000 milliseconds (Retry-After of 2 seconds) exceeds
the computed attempt-0 backoff of 1000 milliseconds, yet the code
performs no retry at all for a 429 - it raises immediately - so the
larger of the two delays is not honored, contradicting the claim. -/
theorem C4_retry_after_counterexample :
    classifyPlayback (.status 429) = .rateLimited ∧
    retryDelayBase 0 < 2000 ∧
    playbackRetries (.status 429) 0 = false ∧
    prodPlaybackStep (.status 429) 0 =
      .failure "Spotify rate limit exceeded - retry after 1s" := by
  refine ⟨by decide, ?_, by decide, by decide⟩
  unfold retryDelayBase
  rw [min_eq_left (by norm_num)]
  norm_num

/-- C4 amended: the widget retry delay equals min(1000 * 2 ^ attempt,
30000) plus its jitter, its deterministic component is non-decreasing in
the attempt and the total stays below 31000 milliseconds; the
server-side retry path uses exactly 1000 * 2 ^ retryCount with no jitter
and no cap, and a RateLimited (429) playback failure is never retried,
so no upstream retry-after hint is ever honored as a delay. -/
theorem C4_backoff_amended (n rc : Nat) (j : ℚ) (h0 : 0 ≤ j) (h1 : j < 1000) :
    getRetryDelay n j = retryDelayBase n + j ∧
    retryDelayBase n ≤ retryDelayBase (n + 1) ∧
    getRetryDelay n j < 31000 ∧
    serverRetryDelay rc = 1000 * 2 ^ rc ∧
    playbackRetries (.status 429) rc = false := by
  refine ⟨rfl, ?_, ?_, rfl, ?_⟩
  · unfold retryDelayBase
    have h2 : (1000 : ℚ) * 2 ^ n ≤ 1000 * 2 ^ (n + 1) := by
      have h3 : (2 : ℚ) ^ n ≤ 2 ^ (n + 1) :=
        pow_le_pow_right₀ (by norm_num) (Nat.le_succ n)
      nlinarith
    exact min_le_min h2 le_rfl
  · unfold getRetryDelay
    have h3 : min ((1000 : ℚ) * 2 ^ n) 30000 ≤ 30000 := min_le_right _ _
    linarith
  · simp [playbackRetries, prodPlaybackStep]

/-- C4 witness: the amended statement at attempt 0, retry count 0 and a
jitter of one half. -/
theorem C4_backoff_amended_witness :
    getRetryDelay 0 (1 / 2) = retryDelayBase 0 + 1 / 2 ∧
    retryDelayBase 0 ≤ retryDelayBase (0 + 1) ∧
    getRetryDelay 0 (1 / 2) < 31000 ∧
    serverRetryDelay 0 = 1000 * 2 ^ 0 ∧
    playbackRetries (.status 429) 0 = false :=
  C4_backoff_amended 0 0 (1 / 2) (by norm_num) (by norm_num)

/-- C5 counterexample: the legacy getNowPlaying maps status 401 - a
status of at least 400 - to the successful not-playing result, where
the claim demands that no such status be silently mapped to success. -/
theorem C5_status_counterexample :
    400 ≤ 401 ∧ legacyPlaybackStep 401 = .notPlayingNow := by decide

/-- C5 amended: the retrying production getNowPlaying treats a 204 as
the successful not-playing result and never maps a status of at least
400 to a success (statuses 400-499 raise on the spot, a 5xx raises once
the retry budget is exhausted; only the generic client-error and
unexpected-error messages carry the raw status); the legacy
now-playing.js instead maps every status strictly above 400 to the
successful not-playing result, and only status 400 itself surfaces
there as a failure carrying the raw status. -/
theorem C5_status_amended (s rc : Nat) :
    prodPlaybackStep (.status 204) rc = .notPlayingNow ∧
    (400 ≤ s → prodPlaybackStep (.status s) rc ≠ .notPlayingNow ∧
      prodPlaybackStep (.status s) rc ≠ .parseBody) ∧
    (400 ≤ s → s ≤ 499 → (prodPlaybackStep (.status s) rc).isFailure = true) ∧
    (500 ≤ s → 2 ≤ rc → (prodPlaybackStep (.status s) rc).isFailure = true) ∧
    (400 < s → legacyPlaybackStep s = .notPlayingNow) ∧
    legacyPlaybackStep 400 = .failure "Spotify API error: 400" := by
  refine ⟨by simp [prodPlaybackStep], ?_, ?_, ?_, ?_, by decide⟩
  · intro h4
    constructor <;>
      · simp only [prodPlaybackStep]
        rw [if_neg (by omega : ¬ s = 204)]
        split_ifs <;> simp_all <;> omega
  · intro h4 h5
    simp only [prodPlaybackStep]
    rw [if_neg (by omega : ¬ s = 204), if_pos (⟨h4, h5⟩ : 400 ≤ s ∧ s ≤ 499)]
    split_ifs <;> rfl
  · intro h5 h6
    simp only [prodPlaybackStep]
    rw [if_neg (by omega : ¬ s = 204), if_neg (by omega : ¬ (400 ≤ s ∧ s ≤ 499)),
      if_pos h5, if_neg (by omega : ¬ rc < 2)]
    rfl
  · intro h
    simp only [legacyPlaybackStep]
    rw [if_pos (Or.inr h)]

/-- C5 witness: at status 401 the production path raises while the
legacy path succeeds with the not-playing body. -/
theorem C5_status_amended_witness :
    prodPlaybackStep (.status 401) 0 ≠ .notPlayingNow ∧
    (prodPlaybackStep (.status 401) 0).isFailure = true ∧
    legacyPlaybackStep 401 = .notPlayingNow :=
  ⟨((C5_status_amended 401 0).2.1 (by norm_num)).1,
    (C5_status_amended 401 0).2.2.1 (by norm_num) (by norm_num),
    (C5_status_amended 401 0).2.2.2.2.1 (by norm_num)⟩

/-- C6: an upstream body with is_playing true whose item type is not
track (a podcast episode or an ad) is normalized by the production
handler to 200 with the not-playing body, and the widget fed with that
body renders the not-playing view. -/
theorem C6_podcast_normalized (d : ApiData) (item : ApiItem)
    (hp : d.is_playing = true) (hi : d.item = some item)
    (ht : item.itemType ≠ some "track") :
    prodShapeResponse d =
      { status := 200, headers := [("Cache-Control", prodCacheLong)]
        body := .notPlayingBody } ∧
    widgetView false none (some (bodyToWidgetTrack (prodShapeResponse d).body))
      = .notPlayingView := by
  have h1 : prodShapeResponse d =
      { status := 200, headers := [("Cache-Control", prodCacheLong)]
        body := .notPlayingBody } := by
    simp [prodShapeResponse, hp, hi, ht]
  refine ⟨h1, ?_⟩
  rw [h1]
  simp [widgetView, bodyToWidgetTrack, isPodcast]

/-- C6 witness: a playing podcast episode is served as not playing and
rendered as the not-playing view. -/
theorem C6_podcast_normalized_witness :
    prodShapeResponse
        ⟨true, some 1000, some "episode",
          some ⟨some "episode", some "Pod", none, some 5, none, none, none⟩⟩ =
      { status := 200, headers := [("Cache-Control", prodCacheLong)]
        body := .notPlayingBody } ∧
    widgetView false none
        (some (bodyToWidgetTrack
          (prodShapeResponse
            ⟨true, some 1000, some "episode",
              some ⟨some "episode", some "Pod", none, some 5, none, none,
                none⟩⟩).body))
      = .notPlayingView :=
  C6_podcast_normalized _ _ rfl rfl (by decide)

/-- Every production success response is the long-cache not-playing
response or the short-cache playing response for some extracted track. -/
theorem prodShapeResponse_cases (d : ApiData) :
    prodShapeResponse d =
      { status := 200, headers := [("Cache-Control", prodCacheLong)]
        body := .notPlayingBody } ∨
    ∃ item, d.item = some item ∧ prodShapeResponse d =
      { status := 200, headers := [("Cache-Control", prodCacheShort)]
        body := .playingBody (extractTrack d item) } := by
  by_cases hp : d.is_playing
  · cases hi : d.item with
    | none => left; simp [prodShapeResponse, hp, hi]
    | some item =>
      by_cases ht : item.itemType = some "track"
      · right; exact ⟨item, rfl, by simp [prodShapeResponse, hp, hi, ht]⟩
      · left; simp [prodShapeResponse, hp, hi, ht]
  · left; simp [prodShapeResponse, hp]

/-- C8 counterexample: on a playing track the production handler sets
Cache-Control to s-maxage=5 with a bare stale-while-revalidate directive
- not the claimed stale-while-revalidate=10 - and emits no
X-Playing-State header at all, where the claim requires both. -/
theorem C8_headers_counterexample :
    lookupKey "Cache-Control"
        (prodShapeResponse
          ⟨true, some 1000, some "track",
            some ⟨some "track", some "Song A", some ["Artist A"], some 200000,
              some ⟨some "Album A", some []⟩, some "https://x",
              some "x"⟩⟩).headers
      = some "s-maxage=5, stale-while-revalidate" ∧
    lookupKey "X-Playing-State"
        (prodShapeResponse
          ⟨true, some 1000, some "track",
            some ⟨some "track", some "Song A", some ["Artist A"], some 200000,
              some ⟨some "Album A", some []⟩, some "https://x",
              some "x"⟩⟩).headers
      = none ∧
    lookupKey "Cache-Control" (specFreshnessHeaders true)
      = some "s-maxage=5, stale-while-revalidate=10" ∧
    ("s-maxage=5, stale-while-revalidate" : String)
      ≠ "s-maxage=5, stale-while-revalidate=10" := by
  refine ⟨by decide, by decide, by decide, by decide⟩

/-- C8 amended: production success freshness metadata is a pure function
of the served playing state - s-maxage=5 with a valueless
stale-while-revalidate directive for a playing track, s-maxage=60 with
the same bare directive otherwise - and no X-Playing-State header is
emitted on any success path; the full claimed shape (explicit
stale-while-revalidate of twice the max age plus the X-Playing-State
tag) is produced only by the getCacheHeaders helper of the validation
test, which matches the spec shape exactly. -/
theorem C8_headers_amended (d : ApiData) (b : Bool) :
    ((prodShapeResponse d).body = .notPlayingBody →
      (prodShapeResponse d).headers = [("Cache-Control", prodCacheLong)]) ∧
    (∀ np, (prodShapeResponse d).body = .playingBody np →
      (prodShapeResponse d).headers = [("Cache-Control", prodCacheShort)]) ∧
    lookupKey "X-Playing-State" (prodShapeResponse d).headers = none ∧
    getCacheHeaders b = specFreshnessHeaders b := by
  rcases prodShapeResponse_cases d with h | ⟨item, hi, h⟩
  · refine ⟨fun _ => by rw [h], ?_, by rw [h]; rfl, by cases b <;> decide⟩
    intro np hnp
    rw [h] at hnp
    simp at hnp
  · refine ⟨?_, fun np hnp => by rw [h], by rw [h]; rfl, by cases b <;> decide⟩
    intro hb
    rw [h] at hb
    simp at hb

/-- C8 witness: the not-playing response carries the long bare header,
and the helper matches the claimed shape for the playing state. -/
theorem C8_headers_amended_witness :
    (prodShapeResponse ⟨false, none, none, none⟩).headers
      = [("Cache-Control", prodCacheLong)] ∧
    getCacheHeaders true = specFreshnessHeaders true :=
  ⟨(C8_headers_amended ⟨false, none, none, none⟩ true).1 (by decide),
    (C8_headers_amended ⟨false, none, none, none⟩ true).2.2.2⟩

/-- C9 counterexample: two credential environments that differ only in
the presence of the client id produce different legacy 500 bodies for
the same failure - the debug object leaks presence flags and lengths -
and the legacy body is not the claimed bare error shape. -/
theorem C9_leak_counterexample :
    legacyCatchResponse ⟨some "abc", some "sec", some "tok"⟩ "boom" ≠
      legacyCatchResponse ⟨none, some "sec", some "tok"⟩ "boom" ∧
    (legacyCatchResponse ⟨some "abc", some "sec", some "tok"⟩ "boom").body ≠
      .errorBody "Failed to fetch now playing" := by
  decide

/-- C9 amended: the production handler maps every terminal failure to
status 500 with exactly the generic error body, independent of the
credential environment and of the caught message - no credential-derived
data flows into it; the legacy now-playing.js handler instead appends a
debug object carrying the caught message plus credential presence flags
and lengths, so its body varies with the environment. -/
theorem C9_error_shape_amended (e₁ e₂ : Env) (m₁ m₂ : String) :
    prodCatchResponse e₁ m₁ = prodCatchResponse e₂ m₂ ∧
    (prodCatchResponse e₁ m₁).status = 500 ∧
    (prodCatchResponse e₁ m₁).body = .errorBody "Failed to fetch now playing" :=
  ⟨rfl, rfl, rfl⟩

/-- C10: on an upstream 200 body with is_playing true and no item, the
production, validated and simplified TypeScript handlers all answer 200
with the not-playing body instead of failing. -/
theorem C10_missing_item (d : ApiData) (hp : d.is_playing = true)
    (hi : d.item = none) :
    prodShapeResponse d =
      { status := 200, headers := [("Cache-Control", prodCacheLong)]
        body := .notPlayingBody } ∧
    validatedShapeResponse d =
      { status := 200, headers := [("Cache-Control", prodCacheLong)]
        body := .notPlayingBody } ∧
    simpleShapeBody d = .notPlayingBody ∧
    simpleHandlerResponse d =
      { status := 200
        headers := [("Cache-Control", "s-maxage=10, stale-while-revalidate")]
        body := .notPlayingBody } := by
  refine ⟨?_, ?_, ?_, ?_⟩ <;>
    simp [prodShapeResponse, validatedShapeResponse, simpleShapeBody,
      simpleHandlerResponse, hp, hi]

/-- C10 witness: the concrete playing-without-item body is served as 200
not playing by all three handlers. -/
theorem C10_missing_item_witness :
    prodShapeResponse ⟨true, some 0, none, none⟩ =
      { status := 200, headers := [("Cache-Control", prodCacheLong)]
        body := .notPlayingBody } ∧
    validatedShapeResponse ⟨true, some 0, none, none⟩ =
      { status := 200, headers := [("Cache-Control", prodCacheLong)]
        body := .notPlayingBody } ∧
    simpleShapeBody ⟨true, some 0, none, none⟩ = .notPlayingBody ∧
    simpleHandlerResponse ⟨true, some 0, none, none⟩ =
      { status := 200
        headers := [("Cache-Control", "s-maxage=10, stale-while-revalidate")]
        body := .notPlayingBody } :=
  C10_missing_item ⟨true, some 0, none, none⟩ rfl rfl

end NowPlaying
